import Mathlib

/-!
# Verification of the k10_base64 encoder component

Shallow embedding of the two operations of the `K10_base64` class
(`K10tobase64` — camera frame to Base64, `imgtobase64` — image file to
Base64) and of the RFC 4648 Base64 codec they delegate to.

The repository ships only the class header (`src/k10_base64.h`) and its
README; the method bodies and the external `base64` library are not in the
tree.  Both operations and the codec are therefore modelled from the spec's
step-by-step contracts (spec §4.1, §4.2, §6), while the concrete facts the
README documents — the `"NULL"` failure sentinel, the empty-string failure
value, the RFC 4648 standard alphabet with `=` padding — are taken from
`src/README.md`.

Bytes are `Nat` values with an explicit `< 256` bound where byte identity
matters; text is `String` over its underlying `List Char`.
-/

/-- Modelled from the spec: the RFC 4648 standard Base64 alphabet
(`A–Z a–z 0–9 + /`, README "Character Set"), index `i` holding the digit
of value `i`. -/
def base64Chars : List Char :=
  "ABCDEFGHIJKLMNOPQRSTUVWXYZabcdefghijklmnopqrstuvwxyz0123456789+/".toList

/-- The Base64 digit of a 6-bit value (`'?'` fallback never reached for
values below 64). -/
def b64Char (n : Nat) : Char := base64Chars.getD n '?'

/-- The 6-bit value of a Base64 digit (alphabet index; 64 for characters
outside the alphabet). -/
def b64Val (c : Char) : Nat := base64Chars.indexOf c

/-- Modelled from the spec: the external `base64` library's encoder
(`encode(bytes) → text`), absent from the tree — RFC 4648 standard
alphabet with `=` padding: each 3-byte group becomes 4 digits, a trailing
1- or 2-byte group is padded with `==` or `=`. -/
def encode : List Nat → List Char
  | [] => []
  | [b0] =>
      [b64Char (b0 / 4), b64Char (b0 % 4 * 16), '=', '=']
  | [b0, b1] =>
      [b64Char (b0 / 4), b64Char (b0 % 4 * 16 + b1 / 16),
       b64Char (b1 % 16 * 4), '=']
  | b0 :: b1 :: b2 :: rest =>
      b64Char (b0 / 4) :: b64Char (b0 % 4 * 16 + b1 / 16) ::
      b64Char (b1 % 16 * 4 + b2 / 64) :: b64Char (b2 % 64) :: encode rest

/-- One 4-digit Base64 group decoded to its 1, 2 or 3 bytes, by padding
shape (`xx==` → 1 byte, `xxx=` → 2 bytes, `xxxx` → 3 bytes). -/
def decode4 (c0 c1 c2 c3 : Char) : List Nat :=
  if c2 = '=' then
    [b64Val c0 * 4 + b64Val c1 / 16]
  else if c3 = '=' then
    [b64Val c0 * 4 + b64Val c1 / 16,
     b64Val c1 % 16 * 16 + b64Val c2 / 4]
  else
    [b64Val c0 * 4 + b64Val c1 / 16,
     b64Val c1 % 16 * 16 + b64Val c2 / 4,
     b64Val c2 % 4 * 64 + b64Val c3]

/-- Modelled from the spec: the RFC 4648 Base64 decoder (the spec's
`decode` in `decode(encode(B)) == B`), consuming 4-digit groups. -/
def decode : List Char → List Nat
  | c0 :: c1 :: c2 :: c3 :: rest => decode4 c0 c1 c2 c3 ++ decode rest
  | _ => []

/-- The codec's output as the `String` the C++ methods return. -/
def encodeStr (bs : List Nat) : String := String.mk (encode bs)

/-- Decoding applied to a returned `String`. -/
def decodeStr (s : String) : List Nat := decode s.data

/-- Ceiling division, so that `ceilDiv n 3` is the spec's `ceil(N/3)`. -/
def ceilDiv (a b : Nat) : Nat := (a + b - 1) / b

/-- The failure sentinel of `K10tobase64`, from `src/README.md`:
"`\x22NULL\x22` if frame capture or conversion fails". -/
def sentinel : String := "NULL"

/-- Resource / processing events of one call, for the release-order and
resource-accounting contracts (spec §3 invariants, §4.1 step 2, §4.2). -/
inductive Event where
  | recvFrame
  | compressCall
  | frameReturn
  | b64Encode
  | bufFree
  | fsOpen
  | fsClose
  | memAlloc
  | memFree
deriving DecidableEq

/-- The frame-source and compressor collaborators of one `K10tobase64`
call (spec §6): the frame the queue yields this call, if any, and the
compressor's result on a raw frame (`none` = null buffer). -/
structure CameraEnv where
  frame : Option (List Nat)
  compress : List Nat → Option (List Nat)

/-- Modelled from the spec: the body of `K10tobase64` (declared in
`src/k10_base64.h`, implementation absent from the tree), from the §4.1
contract, with the event trace of the call.  Steps: receive frame (none →
sentinel, nothing acquired); submit to compressor; release the raw frame
immediately after submission on every path; null/zero-length buffer →
sentinel (a zero-length buffer is still freed); otherwise Base64-encode,
free the buffer, return the text. -/
def K10trace (env : CameraEnv) : List Event × String :=
  match env.frame with
  | none => ([], sentinel)
  | some raw =>
    match env.compress raw with
    | none => ([.recvFrame, .compressCall, .frameReturn], sentinel)
    | some buf =>
      if buf.isEmpty then
        ([.recvFrame, .compressCall, .frameReturn, .bufFree], sentinel)
      else
        ([.recvFrame, .compressCall, .frameReturn, .b64Encode, .bufFree],
         encodeStr buf)

/-- The `String` that `K10tobase64` returns. -/
def K10tobase64 (env : CameraEnv) : String := (K10trace env).2

/-- Compressed-buffer allocations of one `K10tobase64` call: one exactly
when the compressor was reached and returned a non-null buffer. -/
def K10bufAllocs (env : CameraEnv) : Nat :=
  match env.frame with
  | none => 0
  | some raw =>
    match env.compress raw with
    | none => 0
    | some _ => 1

/-- The filesystem collaborator of one `imgtobase64` call (spec §6):
whether open, size query, buffer allocation and the full read succeed,
and the file's bytes. -/
structure FsEnv where
  openOk : Bool
  sizeOk : Bool
  contents : List Nat
  allocOk : Bool
  readOk : Bool

/-- Modelled from the spec: the body of `imgtobase64` (declared in
`src/k10_base64.h`, implementation absent from the tree), from the §4.2
contract, with the event trace of the call.  Steps: open (failure →
empty string, nothing acquired); size the file; allocate a buffer of the
file's length (failure → close, empty string); read the whole file
(failure → release what was acquired, empty string); close; encode; free
the buffer; return the text. -/
def imgtrace (fs : FsEnv) : List Event × String :=
  if !fs.openOk then ([], "")
  else if !fs.sizeOk then ([.fsOpen, .fsClose], "")
  else if !fs.allocOk then ([.fsOpen, .fsClose], "")
  else if !fs.readOk then ([.fsOpen, .memAlloc, .fsClose, .memFree], "")
  else ([.fsOpen, .memAlloc, .fsClose, .b64Encode, .memFree],
        encodeStr fs.contents)

/-- The `String` that `imgtobase64` returns. -/
def imgtobase64 (fs : FsEnv) : String := (imgtrace fs).2

/-- Failure of the file path: open, size, allocation or full read failed
(the conditions the spec's `encodeFile` iff enumerates). -/
def fsFailed (fs : FsEnv) : Bool :=
  !fs.openOk || !fs.sizeOk || !fs.allocOk || !fs.readOk

/-- A filesystem in which every step succeeds and the file holds the
single byte `1`. -/
def fsOkOne : FsEnv := ⟨true, true, [1], true, true⟩

/-- A filesystem in which every step succeeds and the file is empty. -/
def fsOkEmpty : FsEnv := ⟨true, true, [], true, true⟩

/-- A camera environment in which the queue yields no frame. -/
def envNoFrame : CameraEnv := ⟨none, fun _ => none⟩

/-- A camera environment in which a frame is obtained and the compressor
returns the 3-byte buffer `[0x35, 0x42, 0xCB]` — the buffer whose Base64
encoding is the text `"NULL"`. -/
def envCollide : CameraEnv := ⟨some [0], fun _ => some [0x35, 0x42, 0xCB]⟩

/-- A camera environment in which a frame is obtained and the compressor
returns the 3-byte buffer `[1, 2, 3]` (the spec's Scenario 1). -/
def envABC : CameraEnv := ⟨some [0], fun _ => some [1, 2, 3]⟩

/-! ## Core codec lemmas (shared helpers) -/

/-- Digit-of-value then value-of-digit is the identity below 64. -/
theorem b64Val_b64Char : ∀ n, n < 64 → b64Val (b64Char n) = n := by decide

/-- No alphabet digit is the padding character. -/
theorem b64Char_ne_pad : ∀ n, n < 64 → b64Char n ≠ '=' := by decide

/-- Output length of the encoder: 4 digits per started 3-byte group. -/
theorem encode_length_eq : ∀ bs : List Nat,
    (encode bs).length = ceilDiv bs.length 3 * 4
  | [] => rfl
  | [b0] => by
      show ([b64Char (b0 / 4), b64Char (b0 % 4 * 16), '=', '='] : List Char).length =
        ceilDiv [b0].length 3 * 4
      simp only [List.length_cons, List.length_nil, ceilDiv]
  | [b0, b1] => by
      show ([b64Char (b0 / 4), b64Char (b0 % 4 * 16 + b1 / 16),
             b64Char (b1 % 16 * 4), '='] : List Char).length =
        ceilDiv [b0, b1].length 3 * 4
      simp only [List.length_cons, List.length_nil, ceilDiv]
  | b0 :: b1 :: b2 :: rest => by
      have ih := encode_length_eq rest
      show (b64Char (b0 / 4) :: b64Char (b0 % 4 * 16 + b1 / 16) ::
            b64Char (b1 % 16 * 4 + b2 / 64) :: b64Char (b2 % 64) ::
            encode rest).length = ceilDiv (b0 :: b1 :: b2 :: rest).length 3 * 4
      simp only [List.length_cons, ceilDiv] at ih ⊢
      omega

/-- The decoder inverts the encoder on byte sequences. -/
theorem decode_encode_of_bytes : ∀ bs : List Nat,
    (∀ b ∈ bs, b < 256) → decode (encode bs) = bs
  | [], _ => rfl
  | [b0], h => by
      have hb0 : b0 < 256 := h b0 (by simp)
      show decode4 (b64Char (b0 / 4)) (b64Char (b0 % 4 * 16)) '=' '=' ++
             decode [] = [b0]
      unfold decode4
      rw [if_pos rfl]
      rw [b64Val_b64Char _ (by omega), b64Val_b64Char _ (by omega)]
      have e1 : b0 / 4 * 4 + b0 % 4 * 16 / 16 = b0 := by omega
      rw [show decode ([] : List Char) = [] from rfl, List.append_nil, e1]
  | [b0, b1], h => by
      have hb0 : b0 < 256 := h b0 (by simp)
      have hb1 : b1 < 256 := h b1 (by simp)
      have hne : b64Char (b1 % 16 * 4) ≠ '=' := b64Char_ne_pad _ (by omega)
      show decode4 (b64Char (b0 / 4)) (b64Char (b0 % 4 * 16 + b1 / 16))
             (b64Char (b1 % 16 * 4)) '=' ++ decode [] = [b0, b1]
      unfold decode4
      rw [if_neg hne, if_pos rfl]
      rw [b64Val_b64Char _ (by omega), b64Val_b64Char _ (by omega),
          b64Val_b64Char _ (by omega)]
      have e1 : b0 / 4 * 4 + (b0 % 4 * 16 + b1 / 16) / 16 = b0 := by omega
      have e2 : (b0 % 4 * 16 + b1 / 16) % 16 * 16 + b1 % 16 * 4 / 4 = b1 := by
        omega
      rw [show decode ([] : List Char) = [] from rfl, List.append_nil, e1, e2]
  | b0 :: b1 :: b2 :: rest, h => by
      have hb0 : b0 < 256 := h b0 (by simp)
      have hb1 : b1 < 256 := h b1 (by simp)
      have hb2 : b2 < 256 := h b2 (by simp)
      have ih := decode_encode_of_bytes rest (fun b hb => h b (by simp [hb]))
      have hne2 : b64Char (b1 % 16 * 4 + b2 / 64) ≠ '=' :=
        b64Char_ne_pad _ (by omega)
      have hne3 : b64Char (b2 % 64) ≠ '=' := b64Char_ne_pad _ (by omega)
      show decode4 (b64Char (b0 / 4)) (b64Char (b0 % 4 * 16 + b1 / 16))
             (b64Char (b1 % 16 * 4 + b2 / 64)) (b64Char (b2 % 64)) ++
             decode (encode rest) = b0 :: b1 :: b2 :: rest
      rw [ih]
      unfold decode4
      rw [if_neg hne2, if_neg hne3]
      rw [b64Val_b64Char _ (by omega), b64Val_b64Char _ (by omega),
          b64Val_b64Char _ (by omega), b64Val_b64Char _ (by omega)]
      have e1 : b0 / 4 * 4 + (b0 % 4 * 16 + b1 / 16) / 16 = b0 := by omega
      have e2 : (b0 % 4 * 16 + b1 / 16) % 16 * 16 +
                  (b1 % 16 * 4 + b2 / 64) / 4 = b1 := by omega
      have e3 : (b1 % 16 * 4 + b2 / 64) % 4 * 64 + b2 % 64 = b2 := by omega
      simp only [List.cons_append, List.nil_append]
      rw [e1, e2, e3]

/-- The encoder yields the empty digit list exactly on empty input. -/
theorem encode_eq_nil_iff (bs : List Nat) : encode bs = [] ↔ bs = [] := by
  rw [← List.length_eq_zero, ← List.length_eq_zero, encode_length_eq]
  simp only [ceilDiv]
  omega

/-- The encoder's `String` output is empty exactly on empty input. -/
theorem encodeStr_eq_empty_iff (bs : List Nat) : encodeStr bs = "" ↔ bs = [] := by
  constructor
  · intro h
    have hdata : encode bs = [] := congrArg String.data h
    exact (encode_eq_nil_iff bs).mp hdata
  · intro h
    subst h
    rfl

/-- The only byte sequence encoding to the sentinel text `"NULL"` is
`[0x35, 0x42, 0xCB]`. -/
theorem encodeStr_eq_sentinel_iff (bs : List Nat) (hb : ∀ b ∈ bs, b < 256) :
    encodeStr bs = sentinel ↔ bs = [0x35, 0x42, 0xCB] := by
  constructor
  · intro hs
    have hdata : encode bs = "NULL".data := congrArg String.data hs
    have hrt := decode_encode_of_bytes bs hb
    rw [← hrt, hdata]
    decide
  · intro h
    subst h
    decide

/-! ## Claim theorems -/

/-- Claim C1 (counterexample): the 3-byte sequence `[0x35, 0x42, 0xCB]` is
non-empty and its Base64 encoding equals the failure sentinel `"NULL"`, so
the sentinel is not distinguishable from every valid non-empty Base64
output. -/
theorem C1_sentinel_collision_cex :
    encodeStr [0x35, 0x42, 0xCB] = sentinel
  ∧ 0 < ([0x35, 0x42, 0xCB] : List Nat).length := by decide

/-- Claim C1 (amended): the sentinel `"NULL"` is distinguishable from the
encoding of every non-empty byte sequence except the single 3-byte
sequence `[0x35, 0x42, 0xCB]`: for every byte sequence other than that
one, `encode(B)` differs from the sentinel. -/
theorem C1_sentinel_distinguishable_amended (bs : List Nat)
    (hb : ∀ b ∈ bs, b < 256) (_hlen : 0 < bs.length)
    (hne : bs ≠ [0x35, 0x42, 0xCB]) :
    encodeStr bs ≠ sentinel :=
  fun hs => hne ((encodeStr_eq_sentinel_iff bs hb).mp hs)

/-- Claim C1 witness: the amended statement at the one-byte input `[0]`. -/
theorem C1_amended_witness : encodeStr [0] ≠ sentinel :=
  C1_sentinel_distinguishable_amended [0] (by decide) (by decide) (by decide)

/-- Claim C4: the encoder's output length for an `N`-byte input is
`ceil(N/3) * 4`. -/
theorem C4_encode_output_length (bs : List Nat) :
    (encode bs).length = ceilDiv bs.length 3 * 4 :=
  encode_length_eq bs

/-- Claim C5: decoding the codec's output recovers the input byte
sequence exactly (`decode(encode(B)) = B`), for the RFC 4648 standard
alphabet encoder with `=` padding embedded here. -/
theorem C5_decode_encode_roundtrip (bs : List Nat)
    (hb : ∀ b ∈ bs, b < 256) :
    decode (encode bs) = bs :=
  decode_encode_of_bytes bs hb

/-- Claim C5 witness: the round trip at the concrete input
`[0, 255, 16, 32]`. -/
theorem C5_roundtrip_witness :
    decode (encode [0, 255, 16, 32]) = [0, 255, 16, 32] :=
  C5_decode_encode_roundtrip [0, 255, 16, 32] (by decide)

/-- Claim C6: the encoder applied to the empty byte sequence yields the
empty text value. -/
theorem C6_encode_empty : encodeStr [] = "" := rfl

/-- Claim C9: the failure sentinel of `K10tobase64` is exactly the
four-character text `"NULL"`, which is syntactically valid Base64 (four
characters of the standard alphabet, length divisible by 4), and the
3-byte input `[0x35, 0x42, 0xCB]` encodes to it. -/
theorem C9_sentinel_is_valid_base64 :
    sentinel = "NULL"
  ∧ sentinel.length = 4
  ∧ sentinel.length % 4 = 0
  ∧ (∀ c ∈ sentinel.data, c ∈ base64Chars)
  ∧ encodeStr [0x35, 0x42, 0xCB] = sentinel
  ∧ ([0x35, 0x42, 0xCB] : List Nat).length = 3 := by decide

/-- Claim C10: a file that opens, sizes, allocates and reads successfully
but holds zero bytes makes `imgtobase64` return the empty string — the
same value as on a failure (here: open failure), so the two cases are
indistinguishable by the return value. -/
theorem C10_empty_file_indistinguishable :
    imgtobase64 fsOkEmpty = ""
  ∧ fsFailed fsOkEmpty = false
  ∧ imgtobase64 ⟨false, true, [], true, true⟩ = ""
  ∧ fsFailed ⟨false, true, [], true, true⟩ = true := by decide

/-- The event trace of the file path, independent of the file's
contents. -/
theorem imgtrace_fst (fs : FsEnv) :
    (imgtrace fs).1 =
      if !fs.openOk then []
      else if !fs.sizeOk then [Event.fsOpen, Event.fsClose]
      else if !fs.allocOk then [Event.fsOpen, Event.fsClose]
      else if !fs.readOk then
        [Event.fsOpen, Event.memAlloc, Event.fsClose, Event.memFree]
      else
        [Event.fsOpen, Event.memAlloc, Event.fsClose, Event.b64Encode,
         Event.memFree] := by
  obtain ⟨o, s, c, a, r⟩ := fs
  cases o <;> cases s <;> cases a <;> cases r <;> rfl

/-- Closed form of the file path: the empty string on any failure, the
encoded contents otherwise. -/
theorem imgtobase64_eq (fs : FsEnv) :
    imgtobase64 fs = if fsFailed fs then "" else encodeStr fs.contents := by
  obtain ⟨o, s, c, a, r⟩ := fs
  cases o <;> cases s <;> cases a <;> cases r <;> rfl

/-- Claim C2 (counterexample): a filesystem on which open, size,
allocation and the full read all succeed but the file is empty makes
`imgtobase64` return the empty string although nothing failed — refuting
the "only if" direction of the claim's iff. -/
theorem C2_empty_result_without_failure_cex :
    imgtobase64 fsOkEmpty = "" ∧ fsFailed fsOkEmpty = false := by decide

/-- Claim C2 (amended): `imgtobase64` returns the empty string iff
opening, sizing, allocating or fully reading failed **or the file is
empty**; and for every valid non-empty file it returns a non-empty Base64
text whose decoded bytes equal the file's exact contents. -/
theorem C2_encodeFile_amended (fs : FsEnv) (hb : ∀ b ∈ fs.contents, b < 256) :
    (imgtobase64 fs = "" ↔ (fsFailed fs = true ∨ fs.contents = []))
  ∧ (fsFailed fs = false → fs.contents ≠ [] →
      imgtobase64 fs ≠ "" ∧ decodeStr (imgtobase64 fs) = fs.contents) := by
  cases hf : fsFailed fs with
  | false =>
      refine ⟨?_, fun _ hne => ⟨?_, ?_⟩⟩
      · simp [imgtobase64_eq, hf, encodeStr_eq_empty_iff]
      · simp only [imgtobase64_eq, hf, if_false, Bool.false_eq_true]
        intro hcon
        exact hne ((encodeStr_eq_empty_iff fs.contents).mp hcon)
      · simp only [imgtobase64_eq, hf, if_false, Bool.false_eq_true]
        exact decode_encode_of_bytes fs.contents hb
  | true =>
      refine ⟨?_, fun h _ => ?_⟩
      · simp [imgtobase64_eq, hf]
      · exact absurd h (by decide)

/-- Claim C2 witness: the amended statement at a fully-working filesystem
holding the one-byte file `[1]`. -/
theorem C2_encodeFile_witness :
    (imgtobase64 fsOkOne = "" ↔ (fsFailed fsOkOne = true ∨ fsOkOne.contents = []))
  ∧ (fsFailed fsOkOne = false → fsOkOne.contents ≠ [] →
      imgtobase64 fsOkOne ≠ "" ∧ decodeStr (imgtobase64 fsOkOne) = fsOkOne.contents) :=
  C2_encodeFile_amended fsOkOne (by decide)

/-- Claim C3 (counterexample): with a frame obtained and the compressor
successfully producing the non-empty buffer `[0x35, 0x42, 0xCB]`,
`K10tobase64` still returns the sentinel, because that buffer's Base64
encoding is the text `"NULL"` — refuting "it never returns the sentinel
after a non-empty compressed buffer was successfully produced". -/
theorem C3_sentinel_after_success_cex :
    K10tobase64 envCollide = sentinel
  ∧ envCollide.frame = some [0]
  ∧ envCollide.compress [0] = some [0x35, 0x42, 0xCB]
  ∧ ([0x35, 0x42, 0xCB] : List Nat) ≠ [] := by decide

/-- Claim C3 (amended): `K10tobase64` returns the sentinel iff no frame
was obtained, or compression failed (null buffer), or it yielded a
zero-length buffer, **or** it yielded exactly the buffer
`[0x35, 0x42, 0xCB]`, whose encoding collides with the sentinel. -/
theorem C3_sentinel_iff_amended (env : CameraEnv)
    (hb : ∀ raw buf, env.compress raw = some buf → ∀ b ∈ buf, b < 256) :
    K10tobase64 env = sentinel ↔
      env.frame = none
      ∨ ∃ raw, env.frame = some raw ∧
          (env.compress raw = none ∨ env.compress raw = some []
            ∨ env.compress raw = some [0x35, 0x42, 0xCB]) := by
  cases hfr : env.frame with
  | none => simp [K10tobase64, K10trace, hfr]
  | some raw =>
      cases hc : env.compress raw with
      | none => simp [K10tobase64, K10trace, hfr, hc]
      | some buf =>
          cases hbuf : buf.isEmpty with
          | true =>
              have hbe : buf = [] := by simpa using hbuf
              subst hbe
              simp [K10tobase64, K10trace, hfr, hc]
          | false =>
              have hbne : buf ≠ [] := by simpa using hbuf
              simp [K10tobase64, K10trace, hfr, hc, hbuf,
                    encodeStr_eq_sentinel_iff buf (hb raw buf hc), hbne]

/-- Claim C3 witness: the amended iff at the no-frame environment, where
both sides hold. -/
theorem C3_sentinel_iff_witness :
    K10tobase64 envNoFrame = sentinel ↔
      envNoFrame.frame = none
      ∨ ∃ raw, envNoFrame.frame = some raw ∧
          (envNoFrame.compress raw = none ∨ envNoFrame.compress raw = some []
            ∨ envNoFrame.compress raw = some [0x35, 0x42, 0xCB]) :=
  C3_sentinel_iff_amended envNoFrame (fun raw buf h => by simp [envNoFrame] at h)

/-- Claim C7: in every `K10tobase64` call in which a frame was obtained,
the trace releases the raw frame immediately after the frame is submitted
to the compressor — on the compression-failure, zero-length-buffer and
success paths alike — and no Base64 encoding happens before that
release. -/
theorem C7_frame_release_order (env : CameraEnv) (raw : List Nat)
    (h : env.frame = some raw) :
    ∃ pre post, (K10trace env).1 =
        pre ++ Event.compressCall :: Event.frameReturn :: post
      ∧ Event.b64Encode ∉ pre := by
  cases hc : env.compress raw with
  | none =>
      refine ⟨[Event.recvFrame], [], ?_, by decide⟩
      simp [K10trace, h, hc]
  | some buf =>
      cases hbuf : buf.isEmpty with
      | true =>
          refine ⟨[Event.recvFrame], [Event.bufFree], ?_, by decide⟩
          simp [K10trace, h, hc, hbuf]
      | false =>
          refine ⟨[Event.recvFrame], [Event.b64Encode, Event.bufFree], ?_,
                  by decide⟩
          simp [K10trace, h, hc, hbuf]

/-- Claim C7 witness: the release ordering at the concrete environment of
the spec's Scenario 1. -/
theorem C7_release_order_witness :
    ∃ pre post, (K10trace envABC).1 =
        pre ++ Event.compressCall :: Event.frameReturn :: post
      ∧ Event.b64Encode ∉ pre :=
  C7_frame_release_order envABC [0] rfl

/-- Claim C8: for every call of either operation, success or failure,
resource acquisitions balance releases — frame slots received equal frame
slots returned and compressed-buffer allocations equal buffer frees on
the camera path; file opens equal closes and file-buffer allocations
equal frees on the file path. -/
theorem C8_resource_balance (env : CameraEnv) (fs : FsEnv) :
    ((K10trace env).1.count Event.recvFrame =
        (K10trace env).1.count Event.frameReturn
      ∧ K10bufAllocs env = (K10trace env).1.count Event.bufFree)
  ∧ ((imgtrace fs).1.count Event.fsOpen = (imgtrace fs).1.count Event.fsClose
      ∧ (imgtrace fs).1.count Event.memAlloc =
          (imgtrace fs).1.count Event.memFree) := by
  constructor
  · cases hfr : env.frame with
    | none =>
        have ht : (K10trace env).1 = [] := by simp [K10trace, hfr]
        have ha : K10bufAllocs env = 0 := by simp [K10bufAllocs, hfr]
        rw [ht, ha]
        exact ⟨rfl, rfl⟩
    | some raw =>
        cases hc : env.compress raw with
        | none =>
            have ht : (K10trace env).1 =
                [Event.recvFrame, Event.compressCall, Event.frameReturn] := by
              simp [K10trace, hfr, hc]
            have ha : K10bufAllocs env = 0 := by simp [K10bufAllocs, hfr, hc]
            rw [ht, ha]
            exact ⟨by decide, by decide⟩
        | some buf =>
            have ha : K10bufAllocs env = 1 := by simp [K10bufAllocs, hfr, hc]
            cases hbuf : buf.isEmpty with
            | true =>
                have ht : (K10trace env).1 =
                    [Event.recvFrame, Event.compressCall, Event.frameReturn,
                     Event.bufFree] := by
                  simp [K10trace, hfr, hc, hbuf]
                rw [ht, ha]
                exact ⟨by decide, by decide⟩
            | false =>
                have ht : (K10trace env).1 =
                    [Event.recvFrame, Event.compressCall, Event.frameReturn,
                     Event.b64Encode, Event.bufFree] := by
                  simp [K10trace, hfr, hc, hbuf]
                rw [ht, ha]
                exact ⟨by decide, by decide⟩
  · rw [imgtrace_fst]
    obtain ⟨o, s, c, a, r⟩ := fs
    cases o <;> cases s <;> cases a <;> cases r <;>
      exact ⟨rfl, rfl⟩
